import Mathlib

/-!
# Verification of the captura-deploy core against its specification

This file gives a shallow embedding, in Lean 4, of the algorithmic core of the
captura-deploy repository:

* the image tag derivation of `Builder.image_tags` and `Builder.image_full`
  (`src/captura_pipelines/builder.py`),
* the github URL pattern match and checkout-path derivation of
  `BuilderGit.check_repository` (`src/captura_pipelines/builder.py`),
* the field effects of `BuilderGit.configure` (`src/captura_pipelines/builder.py`),
* the response check and the DNS reconciliation routine of
  `PorkbunRequests` (`src/captura_pulumi/porkbun.py`).

Python `None`-able strings become `Option String`, Python sets of strings become
`Finset String`, the HTTP client becomes an explicit client interface that is
threaded through the reconciler, and raised exceptions become explicit error
values.  Each definition mirrors the corresponding Python function; theorems
about the definitions follow after all definitions.
-/

set_option autoImplicit false

/-! ## Builder: tag derivation (`src/captura_pipelines/builder.py`)

`RegistryConfig` carries the two fields of `PipelineConfig.registry` read by
`Builder.image_full`.  `builder.py` guards `registry is None`, so the field is
modelled as `Option String` even though `config.py` annotates it as `str`.
-/

structure RegistryConfig where
  username : String
  registry : Option String
deriving DecidableEq, Repr

/-- `BuilderImage`: the fields of the `image` section of a builder file.
`labels` is omitted: no claim mentions it and `image_tags` never reads it. -/
structure BuilderImage where
  repository : String
  tags : Finset String
  push : Bool
deriving DecidableEq

/-- `BuilderGit`: the fields of the `git` section of a builder file. -/
structure BuilderGit where
  repository : String
  path : String
  pull : Bool
  branch : String
  tag : Option String
  commit : Option String
  dockerfile : Option String
  dockertarget : Option String
deriving DecidableEq, Repr

/-- `Builder`: the builder with its mixed-in registry configuration. -/
structure Builder where
  registry : RegistryConfig
  git : BuilderGit
  image : BuilderImage
deriving DecidableEq

/-- Python truthiness of an optional string: `None` and `""` are falsy.
`Builder.image_tags` tests `if self.git.tag:`, which is this predicate. -/
def strOptTruthy : Option String → Bool
  | none => false
  | some s => s ≠ ""

/-- `Builder.image_full`: `{ns_or_registry}/{image.repository}` where
`ns_or_registry` is the registry host when set, otherwise the username. -/
def Builder.image_full (b : Builder) : String :=
  let ns_or_registry :=
    match b.registry.registry with
    | none => b.registry.username
    | some r => r
  ns_or_registry ++ "/" ++ b.image.repository

/-- The version string computed inside `Builder.image_tags` when a git tag is
present: `-alpha` on `master`/`main`, `-beta` on `dev`, the bare tag otherwise. -/
def versionOfTag (branch tag : String) : String :=
  if branch = "master" ∨ branch = "main" then tag ++ "-alpha"
  else if branch = "dev" then tag ++ "-beta"
  else tag

/-- `Builder.image_tags`: collect the commit hash (when not `None`), the
branch-suffixed version (when the git tag is truthy), and `image.tags`; then
prefix every element with `image_full ++ ":"`. -/
def Builder.image_tags (b : Builder) : Finset String :=
  let tags : Finset String := ∅
  let tags : Finset String :=
    match b.git.commit with
    | some c => insert c tags
    | none => tags
  let tags : Finset String :=
    match b.git.tag with
    | some t => if t ≠ "" then insert (versionOfTag b.git.branch t) tags else tags
    | none => tags
  let tags := tags ∪ b.image.tags
  tags.image (fun tag => b.image_full ++ ":" ++ tag)

/-! ## `PATTERN_GITHUB` and `BuilderGit.check_repository`

`builder.py` matches repository URLs against the compiled regular expression

  `(?P<scheme>https|ssh)://(?P<auth>(?P<auth_username>[a-zA-Z0-9]+):?`
  `(?P<auth_password>.+)?@)?github.com/(?P<slug>(?P<username>[a-zA-Z0-9_-]+)/`
  `(?P<repository>[a-zA-Z0-9_-]+))(?P<dotgit>\.git)?(?P<path>/.*)?`

with `re.match` (anchored at the start only).  The functions below implement
exactly this pattern, including the backtracking order of the optional `auth`
group (username greedy and longest first, `:?` preferring to consume a colon,
password greedy and longest first, presence of the optional groups preferred
over absence).  The unescaped `.` in `github.com` is a wildcard.  After the
`slug` group the remaining groups are optional and unanchored, so they never
force a backtrack; the match result is determined by the `slug`. -/

/-- ASCII `[a-zA-Z0-9]`. -/
def isAlnumAscii (c : Char) : Bool := c.isAlpha || c.isDigit

/-- ASCII `[a-zA-Z0-9_-]`, the character class of `username` and `repository`. -/
def isSlugChar (c : Char) : Bool := isAlnumAscii c || c = '_' || c = '-'

/-- Match `github.com/` (the `.` a wildcard), then the `slug` group
`(username)/(repository)`; both slug parts are greedy over `[a-zA-Z0-9_-]` and
must be non-empty.  Returns `(username, repository)` on success.  The trailing
`(\.git)?(/.*)?` always succeeds and captures nothing a caller uses. -/
def githubTail : List Char → Option (String × String)
  | 'g' :: 'i' :: 't' :: 'h' :: 'u' :: 'b' :: _ :: 'c' :: 'o' :: 'm' :: '/' :: rest =>
    let user := rest.takeWhile isSlugChar
    if user.isEmpty then none
    else
      match rest.drop user.length with
      | '/' :: rest2 =>
        let repo := rest2.takeWhile isSlugChar
        if repo.isEmpty then none else some (String.mk user, String.mk repo)
      | _ => none
  | _ => none

/-- The suffixes that can follow the `@` of the `auth` group when the engine
matches `(.+)?@` against `cs`, in backtracking order: password present with the
longest password first (the password may contain any character), then password
absent. -/
def passwordRests (cs : List Char) : List (List Char) :=
  ((List.range cs.length).reverse.filterMap
    (fun p => if 1 ≤ p ∧ cs.get? p = some '@' then some (cs.drop (p + 1)) else none))
  ++ (match cs with
      | '@' :: t => [t]
      | _ => [])

/-- The suffixes that can follow the whole `auth` group
`([a-zA-Z0-9]+):?(.+)?@` when matched against `cs`, in backtracking order:
username longest first, a present colon before an absent one. -/
def authRests (cs : List Char) : List (List Char) :=
  let maxU := (cs.takeWhile isAlnumAscii).length
  (List.range maxU).reverse.flatMap (fun i =>
    let afterU := cs.drop (i + 1)
    match afterU with
    | ':' :: t => passwordRests t ++ passwordRests afterU
    | _ => passwordRests afterU)

/-- Match `://`, then the optional `auth` group (presence preferred, candidates
in backtracking order), then `githubTail`. -/
def afterScheme (cs : List Char) : Option (String × String) :=
  match cs with
  | ':' :: '/' :: '/' :: rest =>
    match (authRests rest).findSome? githubTail with
    | some r => some r
    | none => githubTail rest
  | _ => none

/-- `PATTERN_GITHUB.match(url)`, reduced to the two capture groups the source
reads: `username` (the owner) and `repository`.  The alternation `https|ssh`
is decided by the first character, so no backtracking crosses the scheme. -/
def githubMatch (url : String) : Option (String × String) :=
  match url.data with
  | 'h' :: 't' :: 't' :: 'p' :: 's' :: rest => afterScheme rest
  | 's' :: 's' :: 'h' :: rest => afterScheme rest
  | _ => none

/-- The source text of the regular expression compiled into `PATTERN_GITHUB`
(203 characters; its one backslash is the `\.` of the `dotgit` group). -/
def PATTERN_GITHUB : String :=
  "(?P<scheme>https|ssh)://(?P<auth>(?P<auth_username>[a-zA-Z0-9]+):?(?P<auth_password>.+)?@)?github.com/(?P<slug>(?P<username>[a-zA-Z0-9_-]+)/(?P<repository>[a-zA-Z0-9_-]+))(?P<dotgit>\\.git)?(?P<path>/.*)?"

/-- The Python `repr` of a printable-ASCII string that contains no apostrophe
and no double quote: single-quoted, with each backslash doubled — the only
escape the pattern source needs. -/
def pyRepr (s : String) : String :=
  "\x27" ++
    String.join (s.data.map (fun c => if c = '\\' then "\\\\" else String.singleton c)) ++
    "\x27"

/-- What the f-string of `check_repository` renders for the compiled pattern
object: `re.compile(%.200R)` — the `repr` of the pattern source truncated to
its first 200 characters, inside `re.compile(...)`.  The 206-character `repr`
loses its last six characters, so the rendering ends `(?P<path>)` and the full
pattern source does not appear verbatim in the message. -/
def PATTERN_GITHUB_rendered : String :=
  "re.compile(" ++ (pyRepr PATTERN_GITHUB).take 200 ++ ")"

/-- `os.path.join` for one relative segment appended to a base without a
trailing slash, the shape used at `values[\x22path\x22] = p.join(PATH_CLONE, ...)`. -/
def pathJoin (a b : String) : String := a ++ "/" ++ b

/-- The pre-validation values read and written by `check_repository`:
presence of the `repository` and `path` keys of the incoming mapping. -/
structure GitValues where
  repository : Option String
  path : Option String
deriving DecidableEq, Repr

/-- `BuilderGit.check_repository`, parametrised by the module constant
`PATH_CLONE` (its runtime value is `realpath(<package>/../..)/.builder`, an
environment-dependent string).  Returns the possibly updated values, or the
`ValueError` message when the URL does not match `PATTERN_GITHUB`; the message
interpolates the compiled pattern, which renders as its truncated
`re.compile(...)` `repr` (`PATTERN_GITHUB_rendered`), not as the raw source. -/
def check_repository (path_clone : String) (v : GitValues) : Except String GitValues :=
  match v.repository with
  | none => .ok v
  | some repository =>
    if v.path.isSome then .ok v
    else
      match githubMatch repository with
      | none =>
        .error ("`" ++ repository ++ "` must match pattern `" ++
          PATTERN_GITHUB_rendered ++ "`.")
      | some m => .ok { v with path := some (pathJoin path_clone m.2) }

/-! ## `BuilderGit.configure`

`configure` touches the filesystem and a git repository through collaborators
(`util.p.exists`, `util.p.isdir`, `git.Repo`, `repo.heads`, `origin.pull`,
`branch.set_commit`, `branch.object.hexsha`).  `GitWorld` records what those
collaborators answer for the one path and repository at hand; collaborator
exceptions (clone or pull failures) abort `configure` without touching `self`
and are not modelled, since every claim about `configure` conditions on a
successful run.  `set_commit` moves a branch pointer of the repository and
writes no field of `self`. -/

structure GitWorld where
  pathExists : Bool
  pathIsDir : Bool
  hasBranch : String → Bool
  hexsha : String → String

/-- `BuilderGit.configure`: validate the clone path, resolve the branch, then
either force the branch to the already-set commit (leaving `self` unchanged)
or populate `commit` from the branch head.  Returns the updated `BuilderGit`. -/
def BuilderGit.configure (g : BuilderGit) (w : GitWorld) : Except String BuilderGit :=
  if w.pathExists && !w.pathIsDir then
    .error ("Clone path `" ++ g.path ++ "` must be a directory.")
  else if !w.hasBranch g.branch then
    .error ("No such branch `" ++ g.branch ++ "` of `" ++ g.repository ++ "`.")
  else
    match g.commit with
    | some _ => .ok g
    | none => .ok { g with commit := some (w.hexsha g.branch) }

/-! ## Porkbun DNS reconciler (`src/captura_pulumi/porkbun.py`)

The reconciler talks to the provider through `httpx`.  The embedding keeps the
requests the code builds (only the constituents later code inspects: the kind
of endpoint and the path/body parameters that vary) and models a response as
its HTTP status code plus the JSON body fields the code reads.  An absent JSON
key is `none`.  Bodies are assumed to parse as JSON (`res.json()` itself can
raise on malformed bodies; no claim depends on that case). -/

namespace Porkbun

/-- One DNS record as read from a `records` entry: the code uses only
`record[\x22id\x22]` and `record[\x22content\x22]`. -/
structure DNSRecord where
  id : String
  content : String
deriving DecidableEq, Repr

/-- The JSON body fields read by `check` and `replace`. -/
structure Body where
  status : Option String
  success : Option String
  records : Option (List DNSRecord)
deriving DecidableEq, Repr

structure Response where
  status_code : Nat
  body : Body
deriving DecidableEq, Repr

/-- The requests `replace` and `__call__` send, keyed by endpoint with the
varying parameters (`req_read_domain` with `record_type=\x22A\x22`,
`req_delete_domain_record`, `req_create_domain_record` with
`record_type=\x22A\x22`, `req_ping`). -/
inductive Req where
  | ping
  | read (domain : String) (subdomain : String)
  | delete (domain : String) (id : String)
  | create (domain : String) (name : Option String) (content : String)
deriving DecidableEq, Repr

/-- The ways the reconciler stops abnormally.  `assertionError` is an
`AssertionError` built by `check` and raised by the caller; `keyError` is a
`KeyError` escaping `check` itself; `assertFailed` is a failing bare `assert`
in `replace`; `valueError` is a raised `ValueError`; `noResponse` stands for a
transport error of the underlying client. -/
inductive Err where
  | assertionError (msg : String)
  | keyError (key : String)
  | assertFailed (msg : String)
  | valueError (msg : String)
  | noResponse
deriving DecidableEq, Repr

/-- `PorkbunRequests.check`.  The returned pair `(data, err?)` is `.ok`; a
Python exception escaping `check` is `.error`.  The status-code message
reproduces the source's swapped `format` arguments (actual code printed as the
expected one); on a non-`SUCCESS` status the source interpolates
`data[\x27success\x27]` — not `data[\x27status\x27]` — into the message, which
raises `KeyError` when the body has no `success` key. -/
def check (res : Response) (status_code : Nat) : Except Err (Body × Option Err) :=
  let data := res.body
  if res.status_code ≠ status_code then
    .ok (data, some (.assertionError
      ("Expected response status code `" ++ toString res.status_code ++
       "`, got `" ++ toString status_code ++ "`.")))
  else
    match data.status with
    | none => .error (.keyError "status")
    | some s =>
      if s = "SUCCESS" then .ok (data, none)
      else
        match data.success with
        | none => .error (.keyError "success")
        | some v =>
          .ok (data, some (.assertionError
            ("`status` should be `SUCCESS`, got `" ++ v ++ "`.")))

/-! ### Subdomain name extraction

`replace` builds `(?P<subdomain_all>(?P<subdomain_name>[*a-zA-Z0-9_-]*)\.?){domain}`
by f-string interpolation and applies `re.match` (anchored at the start only,
trailing input permitted).  The `subdomain_name` class excludes `.`; the
interpolated domain is regex source, so its dots are wildcards.  Backtracking
order: name longest first, then a consumed `\.` before an empty one. -/

/-- `[*a-zA-Z0-9_-]`, the `subdomain_name` character class. -/
def isSubChar (c : Char) : Bool := c = '*' || isAlnumAscii c || c = '_' || c = '-'

/-- Match the interpolated domain as a regex at the head of `s`: each domain
character matches itself, `.` matches any character; input may remain. -/
def domainMatches : List Char → List Char → Bool
  | [], _ => true
  | _ :: _, [] => false
  | d :: dom, c :: s => (d = '.' || d = c) && domainMatches dom s

/-- Try the name group of length `k`: the following `\.?` first consumes a dot
when one is there, then matches empty; after it the domain pattern must match. -/
def subTryAt (dom s : List Char) (k : Nat) : Option (List Char) :=
  let rest := s.drop k
  match rest with
  | '.' :: r =>
    if domainMatches dom r then some (s.take k)
    else if domainMatches dom rest then some (s.take k)
    else none
  | _ => if domainMatches dom rest then some (s.take k) else none

/-- Backtrack over name lengths `k, k-1, …, 0`. -/
def subMatchAux (dom s : List Char) : Nat → Option (List Char)
  | 0 => subTryAt dom s 0
  | k + 1 =>
    match subTryAt dom s (k + 1) with
    | some r => some r
    | none => subMatchAux dom s k

/-- The `subdomain_name` group captured by `p.match(subdomain)` in `replace`,
or `none` when the match fails.  The greedy name group starts from the longest
run of name characters at the head of the input. -/
def subdomainName (domain subdomain : String) : Option String :=
  let s := subdomain.data
  (subMatchAux domain.data s (s.takeWhile isSubChar).length).map String.mk

/-! ### The client boundary and execution traces

`replace` and `__call__` are async generators over an `httpx.AsyncClient`.
The embedding threads an explicit client: a state of type `σ` and a `send`
function; `none` models a transport failure of `client.send`.  A run returns
the final client state, the requests given to `send` in order, the `yield`ed
narrative lines in order, and `none` or the raised error. -/

structure Client (σ : Type) where
  send : σ → Req → Option (Response × σ)

structure RunResult (σ : Type) where
  state : σ
  requests : List Req
  lines : List String
  error : Option Err
deriving DecidableEq, Repr

/-- `f\x22{domain} -> {subdomain_name} -> {ipaddr}\x22`. -/
def msgChain (domain subdomain_name ipaddr : String) : String :=
  domain ++ " -> " ++ subdomain_name ++ " -> " ++ ipaddr

/-- The shared tail of `replace` after the `match records:` statement: the
verification read (reusing the read request), the zero-records assertion, and
the create call.  `reqs` and `lines` accumulate the run so far. -/
def verifyAndCreate {σ : Type} (c : Client σ) (s : σ)
    (domain ipaddr subdomain_name : String)
    (reqs : List Req) (lines : List String) : RunResult σ :=
  let req_read := Req.read domain subdomain_name
  let lines := lines ++ ["Verifying that records cleared for " ++ msgChain domain subdomain_name ipaddr]
  match c.send s req_read with
  | none => ⟨s, reqs ++ [req_read], lines, some .noResponse⟩
  | some (res_read, s1) =>
    match check res_read 200 with
    | .error e => ⟨s1, reqs ++ [req_read], lines, some e⟩
    | .ok (_, some e) => ⟨s1, reqs ++ [req_read], lines, some e⟩
    | .ok (data, none) =>
      match data.records with
      | none => ⟨s1, reqs ++ [req_read], lines, some (.assertFailed "records is not None")⟩
      | some records =>
        if records.length ≠ 0 then
          ⟨s1, reqs ++ [req_read], lines,
            some (.assertFailed "isinstance(records, list) and len(records) == 0")⟩
        else
          let lines := lines ++ ["Creating records for " ++ msgChain domain subdomain_name ipaddr]
          let req_create := Req.create domain (some subdomain_name) ipaddr
          match c.send s1 req_create with
          | none => ⟨s1, reqs ++ [req_read, req_create], lines, some .noResponse⟩
          | some (res_create, s2) =>
            match check res_create 200 with
            | .error e => ⟨s2, reqs ++ [req_read, req_create], lines, some e⟩
            | .ok (_, some e) => ⟨s2, reqs ++ [req_read, req_create], lines, some e⟩
            | .ok (_, none) =>
              ⟨s2, reqs ++ [req_read, req_create], lines ++ ["Record created!"], none⟩

/-- `PorkbunRequests.replace`, run to completion.  The delete response is sent
but never inspected, exactly as in the source. -/
def replace {σ : Type} (c : Client σ) (s0 : σ)
    (domain ipaddr subdomain : String) : RunResult σ :=
  match subdomainName domain subdomain with
  | none => ⟨s0, [], [], some (.valueError ("Failed to match subdomain name of `" ++ subdomain ++ "`."))⟩
  | some subdomain_name =>
    let req_read := Req.read domain subdomain_name
    match c.send s0 req_read with
    | none => ⟨s0, [req_read], [], some .noResponse⟩
    | some (res_read, s1) =>
      match check res_read 200 with
      | .error e => ⟨s1, [req_read], [], some e⟩
      | .ok (_, some e) => ⟨s1, [req_read], [], some e⟩
      | .ok (data, none) =>
        match data.records with
        | none => ⟨s1, [req_read], [], some (.assertFailed "records is not None")⟩
        | some records =>
          match records with
          | [record] =>
            let lines := ["Found record " ++ msgChain domain subdomain_name ipaddr]
            if record.content = ipaddr then ⟨s1, [req_read], lines, none⟩
            else
              let req_delete := Req.delete domain record.id
              match c.send s1 req_delete with
              | none => ⟨s1, [req_read, req_delete], lines, some .noResponse⟩
              | some (_, s2) =>
                verifyAndCreate c s2 domain ipaddr subdomain_name [req_read, req_delete] lines
          | [] =>
            verifyAndCreate c s1 domain ipaddr subdomain_name [req_read]
              ["No record found for " ++ msgChain domain subdomain_name ipaddr]
          | bad =>
            ⟨s1, [req_read], [],
              some (.valueError ("Refusing to handle `" ++ reprStr bad ++ "`."))⟩

/-- The `for subdomain in subdomains:` loop of `__call__`: run `replace` per
subdomain, concatenating traces, stopping at the first raised error. -/
def callLoop {σ : Type} (c : Client σ) (s : σ) (domain ipaddr : String) :
    List String → RunResult σ
  | [] => ⟨s, [], [], none⟩
  | sub :: rest =>
    let r := replace c s domain ipaddr sub
    match r.error with
    | some e => ⟨r.state, r.requests, r.lines, some e⟩
    | none =>
      let r2 := callLoop c r.state domain ipaddr rest
      ⟨r2.state, r.requests ++ r2.requests, r.lines ++ r2.lines, r2.error⟩

/-- `PorkbunRequests.__call__`, run to completion: the ping and its check,
then the per-subdomain loop.  `subdomains` is a Python `set`; the embedding
takes its iteration order as a list. -/
def callPorkbun {σ : Type} (c : Client σ) (s0 : σ)
    (domain ipaddr : String) (subdomains : List String) : RunResult σ :=
  match c.send s0 .ping with
  | none => ⟨s0, [.ping], [], some .noResponse⟩
  | some (res_ping, s1) =>
    match check res_ping 200 with
    | .error e => ⟨s1, [.ping], [], some e⟩
    | .ok (_, some e) => ⟨s1, [.ping], [], some e⟩
    | .ok (_, none) =>
      let r := callLoop c s1 domain ipaddr subdomains
      ⟨r.state, .ping :: r.requests, r.lines, r.error⟩

/-- The write operations of a trace: deletes and creates. -/
def Req.isWrite : Req → Bool
  | .delete _ _ => true
  | .create _ _ _ => true
  | _ => false

def writes (l : List Req) : List Req := l.filter Req.isWrite

/-- The pings of a trace. -/
def countPing (l : List Req) : Nat :=
  (l.filter (fun q => match q with | .ping => true | _ => false)).length

/-! ### Client instances used by the theorems -/

/-- A client that replays a fixed list of responses, one per request. -/
def oracleClient : Client (List Response) :=
  ⟨fun s _ =>
    match s with
    | [] => none
    | r :: rest => some (r, rest)⟩

/-- A well-behaved provider for one domain: records keyed by subdomain name,
fresh ids from a counter; every endpoint answers `200`/`SUCCESS`, reads return
the current records of the queried name, deletes remove by id, creates append. -/
structure ServerState where
  records : List (String × DNSRecord)
  counter : Nat
deriving DecidableEq, Repr

def serverLookup (s : ServerState) (name : String) : List DNSRecord :=
  (s.records.filter (fun p => p.1 = name)).map (fun p => p.2)

def goodResponse (records : Option (List DNSRecord)) : Response :=
  ⟨200, ⟨some "SUCCESS", none, records⟩⟩

def serverSend (s : ServerState) : Req → Option (Response × ServerState)
  | .ping => some (goodResponse none, s)
  | .read _ name => some (goodResponse (some (serverLookup s name)), s)
  | .delete _ id =>
    some (goodResponse none,
      { s with records := s.records.filter (fun p => p.2.id ≠ id) })
  | .create _ name content =>
    some (goodResponse none,
      { records := s.records ++ [(name.getD "", ⟨toString s.counter, content⟩)],
        counter := s.counter + 1 })

def goodClient : Client ServerState := ⟨serverSend⟩

end Porkbun

/-! ## Theorems -/

/-- C1: for every `Builder` whose `git.commit` is set and whose `git.tag` is
absent, `image_tags` is exactly `{image_full:commit}` unioned with
`{image_full:t | t ∈ image.tags}` — no other references appear. -/
theorem C1_image_tags_commit_only (b : Builder) (c : String)
    (hc : b.git.commit = some c) (ht : b.git.tag = none) :
    b.image_tags =
      {b.image_full ++ ":" ++ c} ∪
        b.image.tags.image (fun t => b.image_full ++ ":" ++ t) := by
  unfold Builder.image_tags
  rw [hc, ht]
  simp [Finset.image_union]

def c1Builder : Builder :=
  { registry := ⟨"acederberg", none⟩,
    git := ⟨"https://github.com/acederberg/captura", "/cr/captura", true, "master",
            none, some "deadbeef", some "dockerfile", none⟩,
    image := ⟨"captura", {"latest"}, false⟩ }

/-- Witness for C1 at a concrete builder. -/
theorem C1_witness :
    Builder.image_tags c1Builder =
      {c1Builder.image_full ++ ":" ++ "deadbeef"} ∪
        c1Builder.image.tags.image (fun t => c1Builder.image_full ++ ":" ++ t) :=
  C1_image_tags_commit_only c1Builder "deadbeef" rfl rfl

def c2Builder : Builder :=
  { registry := ⟨"u", none⟩,
    git := ⟨"https://github.com/u/repo", "/p", true, "feature", some "", none, none, none⟩,
    image := ⟨"repo", ∅, false⟩ }

/-- C2 as stated is false: `c2Builder` has the non-null tag `some ""` and the
branch `feature` (neither `master`/`main` nor `dev`), so the claim requires
`image_full:{tag}` — here `"u/repo:"` — in the derived set, but `image_tags`
tests the tag for Python truthiness and skips the empty string. -/
theorem C2_counterexample :
    c2Builder.git.tag = some "" ∧
    c2Builder.git.branch = "feature" ∧
    "u/repo:" ∉ c2Builder.image_tags := by
  refine ⟨rfl, rfl, ?_⟩
  decide

/-- C2 (amended): for every `Builder` with a non-null, non-empty tag, the
derived set includes `image_full:{tag}-alpha` on branch `master`/`main`,
`image_full:{tag}-beta` on branch `dev`, and the unsuffixed `image_full:{tag}`
on every other branch. -/
theorem C2_version_tag_suffixes (b : Builder) (t : String)
    (ht : b.git.tag = some t) (hne : t ≠ "") :
    ((b.git.branch = "master" ∨ b.git.branch = "main") →
        b.image_full ++ ":" ++ (t ++ "-alpha") ∈ b.image_tags) ∧
    (b.git.branch = "dev" →
        b.image_full ++ ":" ++ (t ++ "-beta") ∈ b.image_tags) ∧
    (b.git.branch ≠ "master" → b.git.branch ≠ "main" → b.git.branch ≠ "dev" →
        b.image_full ++ ":" ++ t ∈ b.image_tags) := by
  have key : b.image_full ++ ":" ++ versionOfTag b.git.branch t ∈ b.image_tags := by
    simp only [Builder.image_tags, ht, ne_eq, hne, not_false_eq_true, if_true]
    exact Finset.mem_image_of_mem _
      (Finset.mem_union_left _ (Finset.mem_insert_self _ _))
  refine ⟨?_, ?_, ?_⟩
  · intro h
    rw [versionOfTag, if_pos h] at key
    exact key
  · intro h
    have hnm : ¬ (b.git.branch = "master" ∨ b.git.branch = "main") := by
      rw [h]; decide
    rw [versionOfTag, if_neg hnm, if_pos h] at key
    exact key
  · intro h1 h2 h3
    rw [versionOfTag, if_neg (by tauto), if_neg h3] at key
    exact key

def c2aBuilder : Builder :=
  { registry := ⟨"acederberg", none⟩,
    git := ⟨"https://github.com/acederberg/captura", "/cr/captura", true, "master",
            some "v1.2.0", some "deadbeef", some "dockerfile", none⟩,
    image := ⟨"captura", ∅, false⟩ }

/-- Witness for the amended C2 at a concrete builder on branch `master`. -/
theorem C2_witness :
    c2aBuilder.image_full ++ ":" ++ ("v1.2.0" ++ "-alpha") ∈ c2aBuilder.image_tags :=
  (C2_version_tag_suffixes c2aBuilder "v1.2.0" rfl (by decide)).1 (Or.inl rfl)

/-- C8 as stated is false twice over.  For the matching URL
`https://github.com/acederberg/captura` with no explicit path,
`check_repository` joins the clone root with the `repository` group only,
yielding `<clone-root>/captura` and not the claimed
`<clone-root>/<owner>/<repo>` = `<clone-root>/acederberg/captura`.  And for
the non-matching URL `https://example.com/x` the error message renders the
compiled pattern as its truncated `re.compile(...)` `repr`, so the expected
pattern's source text is not contained in the message. -/
theorem C8_counterexample :
    check_repository "/captura-deploy/.builder"
        ⟨some "https://github.com/acederberg/captura", none⟩ =
      .ok ⟨some "https://github.com/acederberg/captura",
           some "/captura-deploy/.builder/captura"⟩ ∧
    "/captura-deploy/.builder/captura" ≠ "/captura-deploy/.builder/acederberg/captura" ∧
    check_repository "/captura-deploy/.builder" ⟨some "https://example.com/x", none⟩ =
      .error ("`" ++ "https://example.com/x" ++ "` must match pattern `" ++
        PATTERN_GITHUB_rendered ++ "`.") ∧
    ¬ PATTERN_GITHUB.data <:+:
        ("`" ++ "https://example.com/x" ++ "` must match pattern `" ++
          PATTERN_GITHUB_rendered ++ "`.").data := by
  set_option maxRecDepth 200000 in
  exact ⟨rfl, by decide, rfl, by decide⟩

/-- C8 (amended): with a `repository` value and no explicit path, a URL that
matches `PATTERN_GITHUB` resolves the checkout path to the clone root joined
with the repository name only (`<clone-root>/<repo>`), and a URL that does not
match fails with a message containing the offending string and the truncated
`re.compile(...)` rendering of the compiled pattern (the full pattern source
text is not part of the message; see `C8_counterexample`). -/
theorem C8_checkout_path (path_clone url : String) (v : GitValues)
    (hrep : v.repository = some url) (hpath : v.path = none) :
    (∀ owner repo, githubMatch url = some (owner, repo) →
        check_repository path_clone v =
          .ok ⟨some url, some (path_clone ++ "/" ++ repo)⟩) ∧
    (githubMatch url = none →
        check_repository path_clone v =
          .error ("`" ++ url ++ "` must match pattern `" ++
            PATTERN_GITHUB_rendered ++ "`.") ∧
        url.data <:+:
          ("`" ++ url ++ "` must match pattern `" ++
            PATTERN_GITHUB_rendered ++ "`.").data ∧
        PATTERN_GITHUB_rendered.data <:+:
          ("`" ++ url ++ "` must match pattern `" ++
            PATTERN_GITHUB_rendered ++ "`.").data) := by
  constructor
  · intro owner repo hmatch
    unfold check_repository
    rw [hrep]
    simp [hpath, hmatch, pathJoin]
  · intro hmatch
    refine ⟨?_, ?_, ?_⟩
    · unfold check_repository
      rw [hrep]
      simp [hpath, hmatch]
    · refine ⟨"`".data,
        ("` must match pattern `" ++ PATTERN_GITHUB_rendered ++ "`.").data, ?_⟩
      simp [String.data_append]
    · refine ⟨("`" ++ url ++ "` must match pattern `").data, "`.".data, ?_⟩
      simp [String.data_append]

/-- Witness for the amended C8: the matching arm at a concrete URL and the
failing arm at a concrete non-matching URL. -/
theorem C8_witness :
    check_repository "/cr" ⟨some "https://github.com/acederberg/captura", none⟩ =
      .ok ⟨some "https://github.com/acederberg/captura", some ("/cr" ++ "/" ++ "captura")⟩ ∧
    check_repository "/cr" ⟨some "https://example.com/x", none⟩ =
      .error ("`" ++ "https://example.com/x" ++ "` must match pattern `" ++
        PATTERN_GITHUB_rendered ++ "`.") :=
  ⟨(C8_checkout_path "/cr" "https://github.com/acederberg/captura"
      ⟨some "https://github.com/acederberg/captura", none⟩ rfl rfl).1
      "acederberg" "captura" rfl,
   ((C8_checkout_path "/cr" "https://example.com/x"
      ⟨some "https://example.com/x", none⟩ rfl rfl).2 rfl).1⟩

open Porkbun

/-- C9 is right about the intent but the code slips: on a body whose `status`
is not `SUCCESS` and which has no `success` key, `check` raises `KeyError`
while formatting its error message (it interpolates `data[\x27success\x27]`
where `data[\x27status\x27]` was meant) instead of returning the error.  With
the `success` key present the error is returned as the claim describes. -/
theorem C9_check_keyerror :
    check ⟨200, ⟨some "ERROR", none, none⟩⟩ 200 =
      .error (.keyError "success") ∧
    check ⟨200, ⟨some "ERROR", some "ERROR", none⟩⟩ 200 =
      .ok (⟨some "ERROR", some "ERROR", none⟩,
        some (.assertionError "`status` should be `SUCCESS`, got `ERROR`.")) ∧
    check ⟨200, ⟨some "SUCCESS", none, none⟩⟩ 200 =
      .ok (⟨some "SUCCESS", none, none⟩, none) ∧
    check ⟨500, ⟨some "SUCCESS", none, none⟩⟩ 200 =
      .ok (⟨some "SUCCESS", none, none⟩,
        some (.assertionError "Expected response status code `500`, got `200`.")) :=
  ⟨rfl, rfl, rfl, rfl⟩

/-- C10: whenever `configure` succeeds, every field other than `commit` is
unchanged; `commit` is unchanged when it was already set, and is populated
with the branch head commit exactly when it was `None`. -/
theorem C10_configure_frame (g g2 : BuilderGit) (w : GitWorld)
    (h : g.configure w = .ok g2) :
    g2.repository = g.repository ∧ g2.path = g.path ∧ g2.pull = g.pull ∧
    g2.branch = g.branch ∧ g2.tag = g.tag ∧ g2.dockerfile = g.dockerfile ∧
    g2.dockertarget = g.dockertarget ∧
    (g.commit.isSome → g2.commit = g.commit) ∧
    (g.commit = none → g2.commit = some (w.hexsha g.branch)) := by
  unfold BuilderGit.configure at h
  split at h
  · exact absurd h (by simp)
  split at h
  · exact absurd h (by simp)
  cases hc : g.commit with
  | some c =>
    rw [hc] at h
    injection h with h
    subst h
    simp [hc]
  | none =>
    rw [hc] at h
    injection h with h
    subst h
    simp [hc]

def c10World : GitWorld := ⟨true, true, fun _ => true, fun _ => "deadbeef"⟩

def c10Git : BuilderGit :=
  ⟨"https://github.com/acederberg/captura", "/cr/captura", true, "master",
   some "v1.2.0", none, some "dockerfile", none⟩

/-- Witness for C10 at a concrete `BuilderGit` whose `commit` is `None`. -/
theorem C10_witness :
    ({ c10Git with commit := some "deadbeef" } : BuilderGit).tag = c10Git.tag ∧
    ({ c10Git with commit := some "deadbeef" } : BuilderGit).commit =
      some (c10World.hexsha c10Git.branch) := by
  have h := C10_configure_frame c10Git { c10Git with commit := some "deadbeef" } c10World rfl
  exact ⟨h.2.2.2.2.1, h.2.2.2.2.2.2.2.2 rfl⟩

/-! ### Helper lemmas about the reconciler -/

/-- A run of `replace` with a well-behaved provider holding exactly one record
with the target content is a pure read: nothing changes and nothing fails. -/
theorem replace_good_noop (s : ServerState) (domain ipaddr sub nm id : String)
    (hsub : subdomainName domain sub = some nm)
    (hlook : serverLookup s nm = [⟨id, ipaddr⟩]) :
    replace goodClient s domain ipaddr sub =
      ⟨s, [.read domain nm], ["Found record " ++ msgChain domain nm ipaddr], none⟩ := by
  unfold replace
  rw [hsub]
  simp [goodClient, serverSend, goodResponse, check, hlook]

theorem callLoop_good_noop (domain ipaddr : String) (subs : List String) (s : ServerState)
    (h : ∀ sub ∈ subs, ∃ nm id, subdomainName domain sub = some nm ∧
        serverLookup s nm = [⟨id, ipaddr⟩]) :
    (callLoop goodClient s domain ipaddr subs).state = s ∧
    (callLoop goodClient s domain ipaddr subs).error = none ∧
    writes (callLoop goodClient s domain ipaddr subs).requests = [] := by
  induction subs with
  | nil => simp [callLoop, writes]
  | cons sub rest ih =>
    obtain ⟨nm, id, hsub, hlook⟩ := h sub (List.mem_cons_self sub rest)
    have hrest := ih (fun x hx => h x (List.mem_cons_of_mem _ hx))
    simp only [callLoop, replace_good_noop s domain ipaddr sub nm id hsub hlook]
    simp only [writes] at hrest ⊢
    simp [hrest.1, hrest.2.1, hrest.2.2, Req.isWrite]

/-- `verifyAndCreate` appends only reads and creates, never a ping. -/
theorem countPing_verifyAndCreate {σ : Type} (c : Client σ) (s : σ)
    (domain ipaddr nm : String) (reqs : List Req) (lines : List String) :
    countPing (verifyAndCreate c s domain ipaddr nm reqs lines).requests =
      countPing reqs := by
  simp only [verifyAndCreate]
  repeat' split
  all_goals simp [countPing, List.filter_append]

/-- `replace` never sends a ping. -/
theorem countPing_replace {σ : Type} (c : Client σ) (s : σ) (d ip sub : String) :
    countPing (replace c s d ip sub).requests = 0 := by
  simp only [replace]
  repeat' split
  all_goals
    first
    | (rw [countPing_verifyAndCreate]; simp [countPing])
    | simp [countPing]

/-- The subdomain loop never sends a ping. -/
theorem countPing_callLoop {σ : Type} (c : Client σ) (s : σ) (d ip : String)
    (subs : List String) :
    countPing (callLoop c s d ip subs).requests = 0 := by
  induction subs generalizing s with
  | nil => simp [callLoop, countPing]
  | cons sub rest ih =>
    simp only [callLoop]
    split
    · exact countPing_replace c s d ip sub
    · have h1 := countPing_replace c s d ip sub
      have h2 := ih ((replace c s d ip sub).state)
      simp only [countPing, List.filter_append, List.length_append] at h1 h2 ⊢
      omega

theorem countPing_cons_ping (l : List Req) :
    countPing (.ping :: l) = countPing l + 1 := by
  simp [countPing]

/-- Every run of `__call__` sends the ping first and sends no other ping. -/
theorem countPing_callPorkbun {σ : Type} (c : Client σ) (s : σ) (d ip : String)
    (subs : List String) :
    countPing (callPorkbun c s d ip subs).requests = 1 ∧
    (callPorkbun c s d ip subs).requests.head? = some .ping := by
  simp only [callPorkbun]
  split
  · exact ⟨rfl, rfl⟩
  split
  · exact ⟨rfl, rfl⟩
  · exact ⟨rfl, rfl⟩
  · constructor
    · simp only [countPing_cons_ping, countPing_callLoop]
    · rfl

/-! ### The reconciler claims -/

/-- C3: when the initial lookup of a subdomain finds exactly one record whose
content differs from the target, `replace` issues exactly one delete, then one
verification lookup, then one create, in that order and nothing else; and when
the verification lookup still observes records, it fails before any create. -/
theorem C3_replace_differing_record (domain ipaddr subdomain n : String)
    (rec : DNSRecord) (r1 rdel r2 r3 r2' : Response)
    (d1 d2 d3 d2' : Body) (recs' : List DNSRecord)
    (rest rest' : List Response)
    (hsub : subdomainName domain subdomain = some n)
    (h1 : check r1 200 = .ok (d1, none))
    (hr1 : d1.records = some [rec])
    (hne : rec.content ≠ ipaddr)
    (h2 : check r2 200 = .ok (d2, none))
    (hr2 : d2.records = some [])
    (h3 : check r3 200 = .ok (d3, none))
    (h2' : check r2' 200 = .ok (d2', none))
    (hr2' : d2'.records = some recs')
    (hne' : recs' ≠ []) :
    replace oracleClient (r1 :: rdel :: r2 :: r3 :: rest) domain ipaddr subdomain =
      ⟨rest,
       [.read domain n, .delete domain rec.id, .read domain n,
        .create domain (some n) ipaddr],
       ["Found record " ++ msgChain domain n ipaddr,
        "Verifying that records cleared for " ++ msgChain domain n ipaddr,
        "Creating records for " ++ msgChain domain n ipaddr,
        "Record created!"],
       none⟩ ∧
    replace oracleClient (r1 :: rdel :: r2' :: rest') domain ipaddr subdomain =
      ⟨rest',
       [.read domain n, .delete domain rec.id, .read domain n],
       ["Found record " ++ msgChain domain n ipaddr,
        "Verifying that records cleared for " ++ msgChain domain n ipaddr],
       some (.assertFailed "isinstance(records, list) and len(records) == 0")⟩ := by
  obtain ⟨a, t, ht⟩ : ∃ a t, recs' = a :: t := by
    cases recs' with
    | nil => exact absurd rfl hne'
    | cons a t => exact ⟨a, t, rfl⟩
  subst ht
  constructor
  · simp only [replace, verifyAndCreate, oracleClient, hsub, h1, hr1, h2, hr2, h3]
    simp [hne]
  · simp only [replace, verifyAndCreate, oracleClient, hsub, h1, hr1, h2', hr2']
    simp [hne]

def c3read1 : Response := ⟨200, ⟨some "SUCCESS", none, some [⟨"42", "198.51.100.1"⟩]⟩⟩

def c3plain : Response := ⟨200, ⟨some "SUCCESS", none, none⟩⟩

def c3read2 : Response := ⟨200, ⟨some "SUCCESS", none, some []⟩⟩

/-- Witness for C3: a concrete stale record is deleted, verified away and
recreated with the target address. -/
theorem C3_witness :
    (replace oracleClient [c3read1, c3plain, c3read2, c3plain]
        "acederberg.io" "203.0.113.5" "www.acederberg.io").requests =
      [.read "acederberg.io" "www", .delete "acederberg.io" "42",
       .read "acederberg.io" "www",
       .create "acederberg.io" (some "www") "203.0.113.5"] := by
  have h := C3_replace_differing_record "acederberg.io" "203.0.113.5"
    "www.acederberg.io" "www" ⟨"42", "198.51.100.1"⟩
    c3read1 c3plain c3read2 c3plain c3read1
    ⟨some "SUCCESS", none, some [⟨"42", "198.51.100.1"⟩]⟩
    ⟨some "SUCCESS", none, some []⟩
    ⟨some "SUCCESS", none, none⟩
    ⟨some "SUCCESS", none, some [⟨"42", "198.51.100.1"⟩]⟩
    [⟨"42", "198.51.100.1"⟩] [] []
    rfl rfl rfl (by decide) rfl rfl rfl rfl rfl (by decide)
  rw [h.1]

/-- C4: when the lookup of a subdomain finds exactly one record that already
holds the target content, `replace` issues no delete and no create and ends
successfully; against a well-behaved provider whose state holds exactly one
correct record per subdomain, a full reconciliation leaves the provider state
unchanged and performs no writes, and so does a second identical call. -/
theorem C4_replace_noop_idempotent (domain ipaddr subdomain n : String)
    (rec : DNSRecord) (r1 : Response) (d1 : Body) (rest : List Response)
    (s : ServerState) (subs : List String)
    (hsub : subdomainName domain subdomain = some n)
    (h1 : check r1 200 = .ok (d1, none))
    (hr1 : d1.records = some [rec])
    (heq : rec.content = ipaddr)
    (hsrv : ∀ sub ∈ subs, ∃ nm id, subdomainName domain sub = some nm ∧
        serverLookup s nm = [⟨id, ipaddr⟩]) :
    replace oracleClient (r1 :: rest) domain ipaddr subdomain =
      ⟨rest, [.read domain n], ["Found record " ++ msgChain domain n ipaddr], none⟩ ∧
    (callPorkbun goodClient s domain ipaddr subs).state = s ∧
    (callPorkbun goodClient s domain ipaddr subs).error = none ∧
    writes (callPorkbun goodClient s domain ipaddr subs).requests = [] ∧
    writes (callPorkbun goodClient
        ((callPorkbun goodClient s domain ipaddr subs).state)
        domain ipaddr subs).requests = [] := by
  have hcall :
      (callPorkbun goodClient s domain ipaddr subs).state = s ∧
      (callPorkbun goodClient s domain ipaddr subs).error = none ∧
      writes (callPorkbun goodClient s domain ipaddr subs).requests = [] := by
    have hloop := callLoop_good_noop domain ipaddr subs s hsrv
    have hping : goodClient.send s Req.ping = some (goodResponse none, s) := rfl
    have hchk : check (goodResponse none) 200 =
      .ok (⟨some "SUCCESS", none, none⟩, none) := rfl
    simp only [callPorkbun, hping, hchk]
    refine ⟨hloop.1, hloop.2.1, ?_⟩
    simp only [writes] at hloop ⊢
    simp [List.filter_cons, Req.isWrite, hloop.2.2]
  refine ⟨?_, hcall.1, hcall.2.1, hcall.2.2, ?_⟩
  · simp only [replace, oracleClient, hsub, h1, hr1]
    simp [heq]
  · rw [hcall.1]
    exact hcall.2.2

def c4server : ServerState :=
  ⟨[("", ⟨"7", "203.0.113.5"⟩), ("*", ⟨"9", "203.0.113.5"⟩),
    ("www", ⟨"8", "203.0.113.5"⟩)], 10⟩

def c4read : Response := ⟨200, ⟨some "SUCCESS", none, some [⟨"42", "203.0.113.5"⟩]⟩⟩

/-- Witness for C4 at the spec's example: domain `acederberg.io`, subdomains
`{acederberg.io, *.acederberg.io, www.acederberg.io}`, IP `203.0.113.5`. -/
theorem C4_witness :
    (replace oracleClient [c4read] "acederberg.io" "203.0.113.5"
        "www.acederberg.io").requests = [.read "acederberg.io" "www"] ∧
    writes (callPorkbun goodClient
        ((callPorkbun goodClient c4server "acederberg.io" "203.0.113.5"
            ["acederberg.io", "*.acederberg.io", "www.acederberg.io"]).state)
        "acederberg.io" "203.0.113.5"
        ["acederberg.io", "*.acederberg.io", "www.acederberg.io"]).requests = [] := by
  have h := C4_replace_noop_idempotent "acederberg.io" "203.0.113.5"
    "www.acederberg.io" "www" ⟨"42", "203.0.113.5"⟩ c4read
    ⟨some "SUCCESS", none, some [⟨"42", "203.0.113.5"⟩]⟩ [] c4server
    ["acederberg.io", "*.acederberg.io", "www.acederberg.io"]
    rfl rfl rfl rfl
    (by
      intro sub hs
      simp only [List.mem_cons, List.not_mem_nil, or_false] at hs
      rcases hs with rfl | rfl | rfl
      · exact ⟨"", "7", rfl, rfl⟩
      · exact ⟨"*", "9", rfl, rfl⟩
      · exact ⟨"www", "8", rfl, rfl⟩)
  exact ⟨by rw [h.1], h.2.2.2.2⟩

/-- C5: when the lookup of a subdomain finds two or more records, `replace`
raises the refusal (`AmbiguousState` in the taxonomy of the specification;
a `ValueError` in the source) without any delete or create — the read is the
whole trace, whatever responses would follow. -/
theorem C5_ambiguous_state (domain ipaddr subdomain n : String) (r1 : Response)
    (d1 : Body) (recs : List DNSRecord) (rest : List Response)
    (hsub : subdomainName domain subdomain = some n)
    (h1 : check r1 200 = .ok (d1, none))
    (hr : d1.records = some recs)
    (hlen : 2 ≤ recs.length) :
    replace oracleClient (r1 :: rest) domain ipaddr subdomain =
      ⟨rest, [.read domain n], [],
        some (.valueError ("Refusing to handle `" ++ reprStr recs ++ "`."))⟩ := by
  obtain ⟨a, b, t, ht⟩ : ∃ a b t, recs = a :: b :: t := by
    match recs, hlen with
    | a :: b :: t, _ => exact ⟨a, b, t, rfl⟩
  subst ht
  simp only [replace, oracleClient, hsub, h1, hr]

def c5read : Response :=
  ⟨200, ⟨some "SUCCESS", none, some [⟨"1", "198.51.100.1"⟩, ⟨"2", "198.51.100.2"⟩]⟩⟩

/-- Witness for C5 at a concrete two-record lookup. -/
theorem C5_witness :
    replace oracleClient [c5read] "acederberg.io" "203.0.113.5"
        "www.acederberg.io" =
      ⟨[], [.read "acederberg.io" "www"], [],
        some (.valueError ("Refusing to handle `" ++
          reprStr [(⟨"1", "198.51.100.1"⟩ : DNSRecord), ⟨"2", "198.51.100.2"⟩] ++
          "`."))⟩ :=
  C5_ambiguous_state "acederberg.io" "203.0.113.5" "www.acederberg.io" "www"
    c5read ⟨some "SUCCESS", none, some [⟨"1", "198.51.100.1"⟩, ⟨"2", "198.51.100.2"⟩]⟩
    [⟨"1", "198.51.100.1"⟩, ⟨"2", "198.51.100.2"⟩] []
    rfl rfl rfl (by decide)

def c6read : Response := ⟨200, ⟨some "SUCCESS", none, some []⟩⟩

def c6plain : Response := ⟨200, ⟨some "SUCCESS", none, none⟩⟩

/-- C6 as stated is false: on a zero-record lookup the code does not go
directly from the initial lookup to the create call — the shared verification
block still runs, so the trace is read, read, create rather than the claimed
read, create. -/
theorem C6_counterexample :
    (replace oracleClient [c6read, c6read, c6plain]
        "acederberg.io" "203.0.113.5" "www.acederberg.io").requests =
      [.read "acederberg.io" "www", .read "acederberg.io" "www",
       .create "acederberg.io" (some "www") "203.0.113.5"] ∧
    (replace oracleClient [c6read, c6read, c6plain]
        "acederberg.io" "203.0.113.5" "www.acederberg.io").requests ≠
      [.read "acederberg.io" "www",
       .create "acederberg.io" (some "www") "203.0.113.5"] :=
  ⟨rfl, by decide⟩

/-- C6 (amended): on a zero-record lookup `replace` issues exactly one create
and no delete, but performs one verification lookup (which must again observe
zero records) between the initial lookup and the create. -/
theorem C6_zero_records_create (domain ipaddr subdomain n : String)
    (r1 r2 r3 : Response) (d1 d2 d3 : Body) (rest : List Response)
    (hsub : subdomainName domain subdomain = some n)
    (h1 : check r1 200 = .ok (d1, none))
    (hr1 : d1.records = some [])
    (h2 : check r2 200 = .ok (d2, none))
    (hr2 : d2.records = some [])
    (h3 : check r3 200 = .ok (d3, none)) :
    replace oracleClient (r1 :: r2 :: r3 :: rest) domain ipaddr subdomain =
      ⟨rest,
       [.read domain n, .read domain n, .create domain (some n) ipaddr],
       ["No record found for " ++ msgChain domain n ipaddr,
        "Verifying that records cleared for " ++ msgChain domain n ipaddr,
        "Creating records for " ++ msgChain domain n ipaddr,
        "Record created!"],
       none⟩ := by
  simp only [replace, verifyAndCreate, oracleClient, hsub, h1, hr1, h2, hr2, h3]
  simp

/-- Witness for the amended C6 at a concrete zero-record lookup. -/
theorem C6_witness :
    replace oracleClient [c6read, c6read, c6plain]
        "acederberg.io" "203.0.113.5" "www.acederberg.io" =
      ⟨[],
       [.read "acederberg.io" "www", .read "acederberg.io" "www",
        .create "acederberg.io" (some "www") "203.0.113.5"],
       ["No record found for " ++ msgChain "acederberg.io" "www" "203.0.113.5",
        "Verifying that records cleared for " ++
          msgChain "acederberg.io" "www" "203.0.113.5",
        "Creating records for " ++ msgChain "acederberg.io" "www" "203.0.113.5",
        "Record created!"],
       none⟩ :=
  C6_zero_records_create "acederberg.io" "203.0.113.5" "www.acederberg.io" "www"
    c6read c6read c6plain
    ⟨some "SUCCESS", none, some []⟩ ⟨some "SUCCESS", none, some []⟩
    ⟨some "SUCCESS", none, none⟩ []
    rfl rfl rfl rfl rfl rfl

/-- C7: every run of `__call__` sends the credential ping first and sends no
other ping; and when the ping check reports failure, the run stops with that
error having sent nothing but the ping — no record operation for any
subdomain. -/
theorem C7_ping_gate (domain ipaddr : String) (subs : List String)
    (oracle rest : List Response) (rping : Response) (d : Body) (e : Err)
    (hping : check rping 200 = .ok (d, some e)) :
    (callPorkbun oracleClient oracle domain ipaddr subs).requests.head? =
      some .ping ∧
    countPing (callPorkbun oracleClient oracle domain ipaddr subs).requests = 1 ∧
    callPorkbun oracleClient (rping :: rest) domain ipaddr subs =
      ⟨rest, [.ping], [], some e⟩ := by
  refine ⟨(countPing_callPorkbun oracleClient oracle domain ipaddr subs).2,
    (countPing_callPorkbun oracleClient oracle domain ipaddr subs).1, ?_⟩
  simp only [callPorkbun, oracleClient, hping]

def c7ping : Response := ⟨403, ⟨some "ERROR", some "ERROR", none⟩⟩

/-- Witness for C7: a failing ping stops a three-subdomain run at the ping. -/
theorem C7_witness :
    callPorkbun oracleClient [c7ping, c3read1] "acederberg.io" "203.0.113.5"
        ["acederberg.io", "*.acederberg.io", "www.acederberg.io"] =
      ⟨[c3read1], [.ping], [],
        some (.assertionError
          "Expected response status code `403`, got `200`.")⟩ :=
  (C7_ping_gate "acederberg.io" "203.0.113.5"
    ["acederberg.io", "*.acederberg.io", "www.acederberg.io"]
    [c7ping, c3read1] [c3read1] c7ping ⟨some "ERROR", some "ERROR", none⟩
    (.assertionError "Expected response status code `403`, got `200`.")
    rfl).2.2
